import Mathlib

/-!
Shallow embedding of the request/response correlation core of
`src/usb/src/device/usb.rs` (struct `GoXLRUSB`: `find_device`,
`from_device`, `perform_request`), together with the theorems that settle
the claims about it.

The USB transport (rusb) is abstracted by an `Oracle` scripting the result
of every outbound control write and every inbound control read of a session;
the protocol state (`command_count`) is carried explicitly, extended with a
ghost log of the frames handed to `write_control` and a cursor into the read
script, so that "which bytes were sent" and "which response was polled" are
observable in theorem statements.  Machine integers are `Nat` with explicit
`% 2 ^ w` where the source truncates.
-/

set_option autoImplicit false

namespace GoXLR

/-- `byteorder::LittleEndian::write_u16`: the two little-endian bytes of a
16-bit value (a wider `Nat` is truncated modulo `2 ^ 16`, as the `as u16`
cast does at the call site). -/
def write_u16 (v : Nat) : List Nat := [v % 256, v / 256 % 256]

/-- `byteorder::LittleEndian::write_u32`: the four little-endian bytes of a
32-bit value. -/
def write_u32 (v : Nat) : List Nat :=
  [v % 256, v / 256 % 256, v / 65536 % 256, v / 16777216 % 256]

/-- `byteorder::LittleEndian::read_u16`: decode the first two bytes of a
slice as a little-endian 16-bit value. -/
def read_u16 (l : List Nat) : Nat := l.getD 0 0 + 256 * l.getD 1 0

/-- `byteorder::LittleEndian::read_u32`: decode the first four bytes of a
slice as a little-endian 32-bit value. -/
def read_u32 (l : List Nat) : Nat :=
  l.getD 0 0 + 256 * l.getD 1 0 + 65536 * l.getD 2 0 + 16777216 * l.getD 3 0

/-- Modelled from the spec: `crate::commands::Command` is not under `src/`.
Per the spec (sections 1 and 3) the command catalogue is data and out of
scope; a command is a stable numeric identifier, with one distinguished
variant `ResetCommandIndex` (the spec's `ResetSequence`).  `other n` stands
for any non-reset command whose `command_id()` is `n`. -/
inductive Command where
  | resetCommandIndex : Command
  | other : Nat → Command
deriving DecidableEq

/-- Modelled from the spec: each variant maps to a fixed 32-bit numeric
identifier; the concrete identifier of `ResetCommandIndex` is catalogue data
and out of scope, fixed here arbitrarily as 0. -/
def Command.command_id : Command → Nat
  | Command.resetCommandIndex => 0
  | Command.other n => n

/-- Lines 109-113 of usb.rs: `vec![0; 16]` with the command identifier
written little-endian at bytes 0-3, `body.len() as u16` at bytes 4-5 and the
sequence number at bytes 6-7; bytes 8-15 stay zero; then
`full_request.extend(body)`.  (`write_u16`/`write_u32` truncate the value to
its low 16/32 bits, exactly as the `u16`/`u32` arguments do.) -/
def frame (command_id : Nat) (command_index : Nat) (body : List Nat) : List Nat :=
  write_u32 command_id ++ write_u16 body.length ++ write_u16 command_index ++
    [0, 0, 0, 0, 0, 0, 0, 0] ++ body

/-- The sequence number a frame carries at bytes 6-7 (little-endian), i.e.
what `LittleEndian::read_u16(&header[6..8])` decodes on the receiving side. -/
def frame_seq (f : List Nat) : Nat := read_u16 (f.drop 6)

/-- Result of one inbound control read (`read_control`, lines 60-78):
`rusb` either fails with `Pipe` (the distinguished not-ready signal, line
132), fails with any other error (fatal, line 142), or returns the buffer
truncated to the transferred length. -/
inductive ReadResult where
  | pipe : ReadResult
  | fatal : ReadResult
  | ok : List Nat → ReadResult
deriving DecidableEq

/-- Script for the transport primitives of one session: the result of the
n-th outbound control write and of the n-th inbound control read. -/
structure Oracle where
  writeOk : Nat → Bool
  readRes : Nat → ReadResult

/-- The error values `perform_request` can surface, named after their origin:
`writeFail` a failed outbound transfer (line 115, via `?`), `readFail` a
non-`Pipe` inbound transfer error (line 145), `pipe` an `Error::from(Pipe)`
(line 154, response shorter than the 16-byte header; line 139 would also
produce it but is dead code), `other` the `rusb::Error::Other` thrown when a
resynchronized retry mismatches again (line 179).  `fuelExhausted` is an
artefact of the fuel-indexed embedding and is unreachable from
`perform_request` (see `perform_request_aux`). -/
inductive UsbError where
  | writeFail : UsbError
  | readFail : UsbError
  | pipe : UsbError
  | other : UsbError
  | fuelExhausted : UsbError
deriving DecidableEq

/-- The mutable state of a `GoXLRUSB` session that the correlation core
touches: the `command_count` field (u16, lines 21 and 99-106), plus ghost
observations of the transport boundary: `rIdx` counts the inbound control
reads issued so far (the cursor into `Oracle.readRes`) and `sent` logs every
buffer handed to `write_control`, in order. -/
structure GoXLRUSB where
  command_count : Nat
  rIdx : Nat
  sent : List (List Nat)
deriving DecidableEq

/-- Lines 41-58: one outbound control transfer.  The frame is handed to the
transport (logged in `sent`) and the scripted result decides between `Ok`
and a surfaced transport error. -/
def write_control (o : Oracle) (st : GoXLRUSB) (data : List Nat) :
    Except UsbError Unit × GoXLRUSB :=
  let st' : GoXLRUSB := { st with sent := st.sent ++ [data] }
  if o.writeOk st.sent.length then (Except.ok (), st')
  else (Except.error UsbError.writeFail, st')

/-- Lines 60-78: one inbound control transfer, yielding the scripted result
and advancing the read cursor. -/
def read_control (o : Oracle) (st : GoXLRUSB) : ReadResult × GoXLRUSB :=
  (o.readRes st.rIdx, { st with rIdx := st.rIdx + 1 })

/-- How the poll loop of `perform_request` ends.  `matched` is the `break`
at line 184 with the trailing body of a sequence-matched response;
`exhausted` is the `for` loop running out after 20 `Pipe` results, which
falls through to line 187 with `response` still the empty vector from line
128; `mismatch` is the sequence-mismatch branch (line 161) that the caller
turns into resync-or-error; `fatal` is an immediately surfaced error. -/
inductive PollOutcome where
  | matched : List Nat → PollOutcome
  | exhausted : PollOutcome
  | mismatch : PollOutcome
  | fatal : UsbError → PollOutcome
deriving DecidableEq

/-- Lines 130-185: the poll loop `for i in 0..20`.  `i` is the loop index
and `fuel = 20 - i` the remaining iterations.  On `Err(Pipe)` the source
checks `i < 20` before sleeping and retrying — the check is modelled
literally; it is always true inside the loop, so the timeout return at line
139 is dead code.  On a successful read shorter than 16 bytes the source
returns `Err(Pipe)` (line 154).  Otherwise it splits off the 16-byte header,
decodes the declared length (bytes 4-5, used only in the `debug_assert!` at
line 183) and the sequence number (bytes 6-7), and compares the latter with
the request's `command_index`. -/
def poll_iter (o : Oracle) (command_index : Nat) :
    Nat → Nat → GoXLRUSB → PollOutcome × GoXLRUSB
  | _, 0, st => (PollOutcome.exhausted, st)
  | i, fuel+1, st =>
    match read_control o st with
    | (ReadResult.pipe, st') =>
      if i < 20 then poll_iter o command_index (i+1) fuel st'
      else (PollOutcome.fatal UsbError.pipe, st')
    | (ReadResult.fatal, st') => (PollOutcome.fatal UsbError.readFail, st')
    | (ReadResult.ok response_header, st') =>
      if response_header.length < 16 then (PollOutcome.fatal UsbError.pipe, st')
      else
        let response := response_header.drop 16
        let header := response_header.take 16
        let response_command_index := read_u16 (header.drop 6)
        if response_command_index ≠ command_index then (PollOutcome.mismatch, st')
        else (PollOutcome.matched response, st')

/-- Lines 98-188: `perform_request(command, body, retry)`, indexed by a fuel
argument standing for the call stack.  Every recursive call strictly
decreases the rank `(2 if the command is not the reset) + (1 if not a
retry)`, which is at most 3, so with fuel 4 the `fuelExhausted` sentinel is
unreachable (see `perform_request_aux_fuel_ge`).

Step order as in the source: sequence assignment (lines 99-106, where the
wrap-around case goes through `request_data(ResetCommandIndex, &[])` —
modelled from the spec: `request_data` of the `GoXLRCommands` trait is not
under `src/` and per spec section 4.4 step 1 performs a fresh, non-retryable
request), framing (lines 108-113), the outbound write (line 115), and the
poll loop; a sequence mismatch either resynchronizes and retries once
(lines 171-176) or, on a retry, throws `rusb::Error::Other` (line 179). -/
def perform_request_aux (o : Oracle) :
    Nat → GoXLRUSB → Command → List Nat → Bool → Except UsbError (List Nat) × GoXLRUSB
  | 0, st, _, _, _ => (Except.error UsbError.fuelExhausted, st)
  | fuel+1, st, command, body, retry =>
    let step1 : Except UsbError Unit × GoXLRUSB :=
      if command = Command.resetCommandIndex then
        (Except.ok (), { st with command_count := 0 })
      else if st.command_count = 65535 then
        match perform_request_aux o fuel st Command.resetCommandIndex [] false with
        | (Except.ok _, st') => (Except.ok (), { st' with command_count := st'.command_count + 1 })
        | (Except.error e, st') => (Except.error e, st')
      else (Except.ok (), { st with command_count := st.command_count + 1 })
    match step1 with
    | (Except.error e, st1) => (Except.error e, st1)
    | (Except.ok _, st1) =>
      let command_index := st1.command_count
      let full_request := frame command.command_id command_index body
      match write_control o st1 full_request with
      | (Except.error e, st2) => (Except.error e, st2)
      | (Except.ok _, st2) =>
        match poll_iter o command_index 0 20 st2 with
        | (PollOutcome.matched response, st3) => (Except.ok response, st3)
        | (PollOutcome.exhausted, st3) => (Except.ok [], st3)
        | (PollOutcome.fatal e, st3) => (Except.error e, st3)
        | (PollOutcome.mismatch, st3) =>
          if retry then (Except.error UsbError.other, st3)
          else
            match perform_request_aux o fuel st3 Command.resetCommandIndex [] true with
            | (Except.error e, st4) => (Except.error e, st4)
            | (Except.ok _, st4) => perform_request_aux o fuel st4 command body true

/-- `perform_request` proper: fuel 4 strictly dominates the recursion rank
(at most 3), so the sentinel never fires. -/
def perform_request (o : Oracle) (st : GoXLRUSB) (command : Command)
    (body : List Nat) (retry : Bool) : Except UsbError (List Nat) × GoXLRUSB :=
  perform_request_aux o 4 st command body retry

/-- A transport script for concrete runs: every write is accepted, and the
n-th read yields the n-th element of `reads` (not-ready once the script is
exhausted). -/
def scriptedOracle (reads : List ReadResult) : Oracle :=
  { writeOk := fun _ => true, readRes := fun n => reads.getD n ReadResult.pipe }

/-- A well-formed 16-byte response header carrying sequence number `s` at
bytes 6-7 and an empty declared body. -/
def respSeq (s : Nat) : List Nat :=
  [0, 0, 0, 0, 0, 0, s % 256, s / 256 % 256, 0, 0, 0, 0, 0, 0, 0, 0]

/-- The next call issued from `st` completes with a matching response: its
outbound write is accepted and, after `j < 20` not-ready polls, the
transport yields a well-formed response carrying the sequence number the
request was assigned (`command_count + 1` for a non-reset command with no
wrap pending). -/
def MatchedCall (o : Oracle) (st : GoXLRUSB) : Prop :=
  o.writeOk st.sent.length = true ∧
  ∃ j resp, j < 20 ∧ (∀ k, k < j → o.readRes (st.rIdx + k) = ReadResult.pipe) ∧
    o.readRes (st.rIdx + j) = ReadResult.ok resp ∧ 16 ≤ resp.length ∧
    read_u16 ((List.take 16 resp).drop 6) = st.command_count + 1

/-- Every command of the list, issued in order as a fresh (non-retry)
request, completes with a matching response in the sense of `MatchedCall`. -/
def CleanRun (o : Oracle) : GoXLRUSB → List (Nat × List Nat) → Prop
  | _, [] => True
  | st, cb :: rest =>
    MatchedCall o st ∧
    CleanRun o (perform_request o st (Command.other cb.1) cb.2 false).2 rest

/-- Issue each `(command id, body)` pair of the list in order as a fresh
request, stopping at the first error: the upper-layer usage pattern the
sequence-numbering claim quantifies over. -/
def run_commands (o : Oracle) : GoXLRUSB → List (Nat × List Nat) → Except UsbError GoXLRUSB
  | st, [] => Except.ok st
  | st, cb :: rest =>
    match perform_request o st (Command.other cb.1) cb.2 false with
    | (Except.ok _, st') => run_commands o st' rest
    | (Except.error e, _) => Except.error e

/-- `rusb::DeviceDescriptor`, restricted to the fields the repository
reads. -/
structure DeviceDescriptor where
  vendor_id : Nat
  product_id : Nat
deriving DecidableEq

/-- `GoXLRDevice` (crate::device::base): the bus number / address pair that
identifies an attached device. -/
structure GoXLRDevice where
  bus_number : Nat
  address : Nat
deriving DecidableEq

/-- One entry of the platform's device list as `find_device` inspects it:
its location plus the result of `device_descriptor()` (`none` when reading
the descriptor fails). -/
structure UsbDeviceInfo where
  bus_number : Nat
  address : Nat
  descriptor : Option DeviceDescriptor
deriving DecidableEq

/-- The loop body of `find_device` (lines 27-36): scan the enumerated
devices in order; on a bus/address match whose descriptor reads
successfully, return it; a matching device whose descriptor cannot be read
is passed over like a non-match; an exhausted list falls through to the
`bail!` at line 38. -/
def find_device_in : List UsbDeviceInfo → GoXLRDevice →
    Except String (UsbDeviceInfo × DeviceDescriptor)
  | [], _ => Except.error "Specified Device not Found!"
  | d :: rest, device =>
    if d.bus_number = device.bus_number ∧ d.address = device.address then
      match d.descriptor with
      | some descriptor => Except.ok (d, descriptor)
      | none => find_device_in rest device
    else find_device_in rest device

/-- Lines 26-39: `find_device`.  `enumerated` is the result of
`rusb::devices()`, with `none` when platform enumeration itself fails — in
which case the `if let Ok(devices)` guard skips the scan and the function
falls through to the same `bail!`. -/
def find_device (enumerated : Option (List UsbDeviceInfo)) (device : GoXLRDevice) :
    Except String (UsbDeviceInfo × DeviceDescriptor) :=
  match enumerated with
  | some devices => find_device_in devices device
  | none => Except.error "Specified Device not Found!"

/-- Lines 82-94: `from_device` resolves the location via `find_device`,
opens a handle (`device.open()?`, abstracted as `openOk` since rusb is out
of scope) and initialises the session with `command_count = 0`. -/
def from_device (enumerated : Option (List UsbDeviceInfo)) (openOk : Bool)
    (device : GoXLRDevice) : Except String (DeviceDescriptor × GoXLRUSB) :=
  match find_device enumerated device with
  | Except.error e => Except.error e
  | Except.ok (_, descriptor) =>
    if openOk then
      Except.ok (descriptor, { command_count := 0, rIdx := 0, sent := [] })
    else Except.error "open failed"

/-- A transport whose outbound writes all fail. -/
def failWriteOracle : Oracle :=
  { writeOk := fun _ => false, readRes := fun _ => ReadResult.pipe }

/-! ## Helper lemmas about the poll loop and single calls -/

/-- A frame built by the framer carries its `command_index` argument,
reduced modulo `2 ^ 16`, at bytes 6-7. -/
theorem frame_seq_frame (cid s : Nat) (body : List Nat) :
    frame_seq (frame cid s body) = s % 65536 := by
  simp [frame_seq, frame, write_u32, write_u16, read_u16]
  omega

/-- A poll attempt that reads a well-formed response with the expected
sequence number ends the loop with that response's trailing body. -/
theorem poll_iter_matched_step (o : Oracle) (ci i fuel : Nat) (st : GoXLRUSB)
    (resp : List Nat) (hr : o.readRes st.rIdx = ReadResult.ok resp)
    (hl : 16 ≤ resp.length)
    (hm : read_u16 ((List.take 16 resp).drop 6) = ci) :
    poll_iter o ci i (fuel+1) st =
      (PollOutcome.matched (resp.drop 16), { st with rIdx := st.rIdx + 1 }) := by
  simp [poll_iter, read_control, hr, hm, Nat.not_lt.mpr hl]

/-- A poll attempt that reads a well-formed response with an unexpected
sequence number ends the loop in the mismatch branch. -/
theorem poll_iter_mismatch_step (o : Oracle) (ci i fuel : Nat) (st : GoXLRUSB)
    (resp : List Nat) (hr : o.readRes st.rIdx = ReadResult.ok resp)
    (hl : 16 ≤ resp.length)
    (hm : read_u16 ((List.take 16 resp).drop 6) ≠ ci) :
    poll_iter o ci i (fuel+1) st =
      (PollOutcome.mismatch, { st with rIdx := st.rIdx + 1 }) := by
  simp [poll_iter, read_control, hr, hm, Nat.not_lt.mpr hl]

/-- `j` consecutive not-ready reads just advance the loop index and the read
cursor by `j` (the `i < 20` guard holds throughout the loop). -/
theorem poll_iter_pipes (o : Oracle) (ci : Nat) :
    ∀ (j i fuel : Nat) (st : GoXLRUSB), i + fuel = 20 → j ≤ fuel →
      (∀ k, k < j → o.readRes (st.rIdx + k) = ReadResult.pipe) →
      poll_iter o ci i fuel st =
        poll_iter o ci (i + j) (fuel - j) { st with rIdx := st.rIdx + j } := by
  intro j
  induction j with
  | zero => intro i fuel st _ _ _; simp
  | succ n ih =>
    intro i fuel st h20 hle hp
    obtain ⟨f, rfl⟩ : ∃ f, fuel = f + 1 := ⟨fuel - 1, by omega⟩
    have h0 : o.readRes st.rIdx = ReadResult.pipe := by
      have := hp 0 (by omega); simpa using this
    have hstep : poll_iter o ci i (f + 1) st =
        poll_iter o ci (i + 1) f { st with rIdx := st.rIdx + 1 } := by
      simp [poll_iter, read_control, h0, if_pos (by omega : i < 20)]
    rw [hstep, ih (i+1) f { st with rIdx := st.rIdx + 1 } (by omega) (by omega)
      (fun k hk => by
        have := hp (k+1) (by omega)
        simpa [Nat.add_assoc, Nat.add_comm 1 k] using this)]
    have e1 : i + 1 + n = i + (n + 1) := by omega
    have e2 : f - n = f + 1 - (n + 1) := by omega
    have e3 : st.rIdx + 1 + n = st.rIdx + (n + 1) := by omega
    rw [e1, e2, e3]

/-- A non-reset call, with no wrap pending, whose write is accepted and
whose poll sees `j` not-ready results and then a well-formed response
carrying the assigned sequence number: it returns that response's body,
increments the counter, sends exactly its own frame and consumes `j + 1`
reads. -/
theorem aux_nonreset_clean (o : Oracle) (fuel : Nat) (st : GoXLRUSB) (cid : Nat)
    (body : List Nat) (retry : Bool) (j : Nat) (resp : List Nat)
    (hc : st.command_count ≠ 65535)
    (hw : o.writeOk st.sent.length = true)
    (hj : j < 20)
    (hp : ∀ k, k < j → o.readRes (st.rIdx + k) = ReadResult.pipe)
    (hr : o.readRes (st.rIdx + j) = ReadResult.ok resp)
    (hl : 16 ≤ resp.length)
    (hm : read_u16 ((List.take 16 resp).drop 6) = st.command_count + 1) :
    perform_request_aux o (fuel+1) st (Command.other cid) body retry =
      (Except.ok (resp.drop 16),
       { command_count := st.command_count + 1, rIdx := st.rIdx + j + 1,
         sent := st.sent ++ [frame cid (st.command_count + 1) body] }) := by
  have hpoll :
      poll_iter o (st.command_count + 1) 0 20
        { command_count := st.command_count + 1, rIdx := st.rIdx,
          sent := st.sent ++ [frame cid (st.command_count + 1) body] } =
      (PollOutcome.matched (resp.drop 16),
       { command_count := st.command_count + 1, rIdx := st.rIdx + j + 1,
         sent := st.sent ++ [frame cid (st.command_count + 1) body] }) := by
    rw [poll_iter_pipes o (st.command_count + 1) j 0 20
      { command_count := st.command_count + 1, rIdx := st.rIdx,
        sent := st.sent ++ [frame cid (st.command_count + 1) body] }
      (by omega) (by omega) (fun k hk => hp k hk)]
    obtain ⟨m, hmeq⟩ : ∃ m, 20 - j = m + 1 := ⟨19 - j, by omega⟩
    rw [hmeq, poll_iter_matched_step o _ _ m _ resp hr hl hm]
  simp only [perform_request_aux, write_control, Command.command_id]
  simp [hc, hw, hpoll]

/-- A reset call whose write is accepted and whose first poll reads a
well-formed response with sequence number 0: it sets the counter to 0, uses
sequence 0 on the wire and returns the response's body. -/
theorem aux_reset_ok (o : Oracle) (fuel : Nat) (st : GoXLRUSB)
    (body : List Nat) (retry : Bool) (resp : List Nat)
    (hw : o.writeOk st.sent.length = true)
    (hr : o.readRes st.rIdx = ReadResult.ok resp)
    (hl : 16 ≤ resp.length)
    (hm : read_u16 ((List.take 16 resp).drop 6) = 0) :
    perform_request_aux o (fuel+1) st Command.resetCommandIndex body retry =
      (Except.ok (resp.drop 16),
       { command_count := 0, rIdx := st.rIdx + 1,
         sent := st.sent ++ [frame Command.resetCommandIndex.command_id 0 body] }) := by
  have hpoll :
      poll_iter o 0 0 20
        { command_count := 0, rIdx := st.rIdx,
          sent := st.sent ++ [frame Command.resetCommandIndex.command_id 0 body] } =
      (PollOutcome.matched (resp.drop 16),
       { command_count := 0, rIdx := st.rIdx + 1,
         sent := st.sent ++ [frame Command.resetCommandIndex.command_id 0 body] }) := by
    exact poll_iter_matched_step o 0 0 19 _ resp hr hl hm
  simp only [perform_request_aux, write_control]
  simp [hw, hpoll]

/-- A non-reset call, with no wrap pending, whose outbound write fails:
the error is surfaced immediately, with the counter already incremented and
the frame already handed to the transport. -/
theorem aux_write_fail (o : Oracle) (fuel : Nat) (st : GoXLRUSB) (cid : Nat)
    (body : List Nat) (retry : Bool)
    (hc : st.command_count ≠ 65535)
    (hw : o.writeOk st.sent.length = false) :
    perform_request_aux o (fuel+1) st (Command.other cid) body retry =
      (Except.error UsbError.writeFail,
       { command_count := st.command_count + 1, rIdx := st.rIdx,
         sent := st.sent ++ [frame cid (st.command_count + 1) body] }) := by
  simp only [perform_request_aux, write_control, Command.command_id]
  simp [hc, hw]

/-- A retry call whose first poll reads a response with the wrong sequence
number fails terminally with the `Other` error, with no further cycle. -/
theorem aux_mismatch_retry (o : Oracle) (fuel : Nat) (st : GoXLRUSB) (cid : Nat)
    (body : List Nat) (resp : List Nat)
    (hc : st.command_count ≠ 65535)
    (hw : o.writeOk st.sent.length = true)
    (hr : o.readRes st.rIdx = ReadResult.ok resp)
    (hl : 16 ≤ resp.length)
    (hm : read_u16 ((List.take 16 resp).drop 6) ≠ st.command_count + 1) :
    perform_request_aux o (fuel+1) st (Command.other cid) body true =
      (Except.error UsbError.other,
       { command_count := st.command_count + 1, rIdx := st.rIdx + 1,
         sent := st.sent ++ [frame cid (st.command_count + 1) body] }) := by
  have hpoll :
      poll_iter o (st.command_count + 1) 0 20
        { command_count := st.command_count + 1, rIdx := st.rIdx,
          sent := st.sent ++ [frame cid (st.command_count + 1) body] } =
      (PollOutcome.mismatch,
       { command_count := st.command_count + 1, rIdx := st.rIdx + 1,
         sent := st.sent ++ [frame cid (st.command_count + 1) body] }) := by
    exact poll_iter_mismatch_step o _ 0 19 _ resp hr hl hm
  simp only [perform_request_aux, write_control, Command.command_id]
  simp [hc, hw, hpoll]

/-- A fresh (non-retry) call whose first poll reads a response with the
wrong sequence number hands control to the resync coordinator: a reset
request, then a retry of the original command, both marked as retries. -/
theorem aux_mismatch_first (o : Oracle) (fuel : Nat) (st : GoXLRUSB) (cid : Nat)
    (body : List Nat) (resp : List Nat)
    (hc : st.command_count ≠ 65535)
    (hw : o.writeOk st.sent.length = true)
    (hr : o.readRes st.rIdx = ReadResult.ok resp)
    (hl : 16 ≤ resp.length)
    (hm : read_u16 ((List.take 16 resp).drop 6) ≠ st.command_count + 1) :
    perform_request_aux o (fuel+1) st (Command.other cid) body false =
      (match perform_request_aux o fuel
          { command_count := st.command_count + 1, rIdx := st.rIdx + 1,
            sent := st.sent ++ [frame cid (st.command_count + 1) body] }
          Command.resetCommandIndex [] true with
       | (Except.error e, st4) => (Except.error e, st4)
       | (Except.ok _, st4) => perform_request_aux o fuel st4 (Command.other cid) body true) := by
  have hpoll :
      poll_iter o (st.command_count + 1) 0 20
        { command_count := st.command_count + 1, rIdx := st.rIdx,
          sent := st.sent ++ [frame cid (st.command_count + 1) body] } =
      (PollOutcome.mismatch,
       { command_count := st.command_count + 1, rIdx := st.rIdx + 1,
         sent := st.sent ++ [frame cid (st.command_count + 1) body] }) := by
    exact poll_iter_mismatch_step o _ 0 19 _ resp hr hl hm
  simp only [perform_request_aux, write_control, Command.command_id]
  simp [hc, hw, hpoll]

/-- A non-reset call arriving with the counter at its maximum: the reset is
executed first (frame with sequence 0), then the command goes out with
sequence 1. -/
theorem aux_wrap_clean (o : Oracle) (fuel : Nat) (st : GoXLRUSB) (cid : Nat)
    (body : List Nat) (retry : Bool) (resp0 resp1 : List Nat)
    (hc : st.command_count = 65535)
    (hw0 : o.writeOk st.sent.length = true)
    (hr0 : o.readRes st.rIdx = ReadResult.ok resp0)
    (hl0 : 16 ≤ resp0.length)
    (hm0 : read_u16 ((List.take 16 resp0).drop 6) = 0)
    (hw1 : o.writeOk (st.sent.length + 1) = true)
    (hr1 : o.readRes (st.rIdx + 1) = ReadResult.ok resp1)
    (hl1 : 16 ≤ resp1.length)
    (hm1 : read_u16 ((List.take 16 resp1).drop 6) = 1) :
    perform_request_aux o (fuel+2) st (Command.other cid) body retry =
      (Except.ok (resp1.drop 16),
       { command_count := 1, rIdx := st.rIdx + 2,
         sent := st.sent ++ [frame Command.resetCommandIndex.command_id 0 [],
                             frame cid 1 body] }) := by
  have hinner : perform_request_aux o (fuel+1) st Command.resetCommandIndex [] false =
      (Except.ok (resp0.drop 16),
       { command_count := 0, rIdx := st.rIdx + 1,
         sent := st.sent ++ [frame Command.resetCommandIndex.command_id 0 []] }) :=
    aux_reset_ok o fuel st [] false resp0 hw0 hr0 hl0 hm0
  have hpoll1 :
      poll_iter o 1 0 20
        { command_count := 1, rIdx := st.rIdx + 1,
          sent := st.sent ++ [frame 0 0 [], frame cid 1 body] } =
      (PollOutcome.matched (resp1.drop 16),
       { command_count := 1, rIdx := st.rIdx + 2,
         sent := st.sent ++ [frame 0 0 [], frame cid 1 body] }) := by
    have := poll_iter_matched_step o 1 0 19
      { command_count := 1, rIdx := st.rIdx + 1,
        sent := st.sent ++ [frame 0 0 [], frame cid 1 body] } resp1 hr1 hl1 hm1
    simpa [Nat.add_assoc] using this
  conv_lhs => rw [show fuel + 2 = (fuel + 1) + 1 from rfl]
  rw [perform_request_aux]
  simp only [hc, hinner, write_control, Command.command_id]
  simp [hw1, hpoll1, Nat.add_assoc]

/-- Issuing a list of non-reset commands that all complete with matching
responses, from any session state far enough from the counter maximum,
sends exactly one frame per command, numbered consecutively from
`command_count + 1`. -/
theorem run_commands_clean (o : Oracle) :
    ∀ (cmds : List (Nat × List Nat)) (st : GoXLRUSB),
      CleanRun o st cmds → st.command_count + cmds.length ≤ 65535 →
      ∃ st' fs, run_commands o st cmds = Except.ok st' ∧
        st'.sent = st.sent ++ fs ∧
        fs.map frame_seq = List.range' (st.command_count + 1) cmds.length ∧
        st'.command_count = st.command_count + cmds.length := by
  intro cmds
  induction cmds with
  | nil =>
    intro st _ _
    exact ⟨st, [], rfl, by simp, by simp [List.range'], by simp⟩
  | cons cb rest ih =>
    intro st hclean hbound
    obtain ⟨⟨hw, j, resp, hj, hp, hr, hl, hm⟩, hrest⟩ := hclean
    have hc : st.command_count ≠ 65535 := by simp at hbound; omega
    have hcall : perform_request o st (Command.other cb.1) cb.2 false =
        (Except.ok (resp.drop 16),
         { command_count := st.command_count + 1, rIdx := st.rIdx + j + 1,
           sent := st.sent ++ [frame cb.1 (st.command_count + 1) cb.2] }) :=
      aux_nonreset_clean o 3 st cb.1 cb.2 false j resp hc hw hj hp hr hl hm
    rw [hcall] at hrest
    obtain ⟨st', fs, hrun, hsent, hseq, hcount⟩ := ih _ hrest (by simp at hbound ⊢; omega)
    refine ⟨st', frame cb.1 (st.command_count + 1) cb.2 :: fs, ?_, ?_, ?_, ?_⟩
    · simp only [run_commands, hcall]
      exact hrun
    · simp only [hsent]; simp
    · simp only [List.map_cons, hseq]
      have h1 : frame_seq (frame cb.1 (st.command_count + 1) cb.2) =
          st.command_count + 1 := by
        rw [frame_seq_frame]
        simp at hbound
        omega
      rw [h1]
      simp [List.range']
    · simp only [hcount]; simp; omega

/-- A frame is the 16-byte header followed by the body; its length is 16 plus the body length, with no truncation of the body itself. -/
theorem frame_length (cid s : Nat) (body : List Nat) :
    (frame cid s body).length = 16 + body.length := by
  simp [frame, write_u32, write_u16]
  omega

/-- Bytes 4-5 of a frame decode to the body length reduced modulo 2 ^ 16: the `as u16` cast at line 111 truncates instead of failing. -/
theorem frame_declared_len (cid s : Nat) (body : List Nat) :
    read_u16 (((frame cid s body).drop 4).take 2) = body.length % 65536 := by
  have h : ((frame cid s body).drop 4).take 2 =
      [body.length % 256, body.length / 256 % 256] := rfl
  rw [h]; simp [read_u16]; omega

/-- The bytes after offset 16 of a frame are exactly the body. -/
theorem frame_drop16 (cid s : Nat) (body : List Nat) :
    (frame cid s body).drop 16 = body := rfl

/-! ## Fuel is irrelevant beyond the recursion rank

The four lemmas below walk the recursion rank ladder
(reset-retry 0, reset-fresh 1, non-reset-retry 2, non-reset-fresh 3) and show
the result of `perform_request_aux` does not depend on the fuel once the fuel
exceeds the rank; `perform_request_aux_fuel_ge` packages this.  In particular
the `fuelExhausted` sentinel of the embedding is unreachable from
`perform_request`, whose recursion is genuinely bounded, as the source's
`retry` flag arrangement intends. -/

theorem aux_reset_true_any (o : Oracle) (f g : Nat) (st : GoXLRUSB) (b : List Nat) :
    perform_request_aux o (f+1) st Command.resetCommandIndex b true =
    perform_request_aux o (g+1) st Command.resetCommandIndex b true := by
  rw [perform_request_aux]
  conv_rhs => rw [perform_request_aux]
  rcases hw : o.writeOk st.sent.length with _ | _ <;> simp [write_control, hw]

theorem aux_reset_false_any (o : Oracle) (f g : Nat) (st : GoXLRUSB) (b : List Nat) :
    perform_request_aux o (f+2) st Command.resetCommandIndex b false =
    perform_request_aux o (g+2) st Command.resetCommandIndex b false := by
  rw [show f + 2 = (f + 1) + 1 from rfl, perform_request_aux]
  conv_rhs => rw [show g + 2 = (g + 1) + 1 from rfl, perform_request_aux]
  rcases hw : o.writeOk st.sent.length with _ | _
  · simp [write_control, hw]
  · simp [write_control, hw]
    rcases hpoll : poll_iter o 0 0 20
        { command_count := 0, rIdx := st.rIdx,
          sent := st.sent ++ [frame Command.resetCommandIndex.command_id 0 b] } with ⟨pr, st3⟩
    cases pr
    case matched => simp
    case exhausted => simp
    case fatal => simp
    case mismatch =>
      dsimp only
      rw [aux_reset_true_any o f g st3 []]
      rcases hres : perform_request_aux o (g+1) st3 Command.resetCommandIndex [] true
        with ⟨res, st4⟩
      cases res
      case error => simp
      case ok => simpa using aux_reset_true_any o f g st4 b

theorem aux_other_true_any (o : Oracle) (f g : Nat) (st : GoXLRUSB) (cid : Nat)
    (body : List Nat) :
    perform_request_aux o (f+3) st (Command.other cid) body true =
    perform_request_aux o (g+3) st (Command.other cid) body true := by
  rw [show f + 3 = (f + 2) + 1 from rfl, perform_request_aux]
  conv_rhs => rw [show g + 3 = (g + 2) + 1 from rfl, perform_request_aux]
  by_cases hc : st.command_count = 65535
  · simp only [hc]
    simp only [show ((Command.other cid = Command.resetCommandIndex) = False) from
      by simp, if_false, if_true, eq_self_iff_true]
    rw [aux_reset_false_any o f g st []]
  · simp [hc]

theorem aux_other_false_any (o : Oracle) (f g : Nat) (st : GoXLRUSB) (cid : Nat)
    (body : List Nat) :
    perform_request_aux o (f+4) st (Command.other cid) body false =
    perform_request_aux o (g+4) st (Command.other cid) body false := by
  rw [show f + 4 = (f + 3) + 1 from rfl, perform_request_aux]
  conv_rhs => rw [show g + 4 = (g + 3) + 1 from rfl, perform_request_aux]
  by_cases hc : st.command_count = 65535
  · simp only [hc]
    simp only [show ((Command.other cid = Command.resetCommandIndex) = False) from
      by simp, if_false, if_true, eq_self_iff_true]
    rw [show f + 3 = (f + 1) + 2 from rfl, aux_reset_false_any o (f + 1) (g + 1) st []]
    rw [show (g + 1) + 2 = g + 3 from rfl]
    rcases hres0 : perform_request_aux o (g + 3) st Command.resetCommandIndex [] false
      with ⟨res0, st'⟩
    cases res0 with
    | error e => rfl
    | ok a =>
      dsimp only
      rcases hw : o.writeOk st'.sent.length with _ | _
      · simp [write_control, hw]
      · simp only [write_control, hw]
        simp only [Command.command_id]
        simp
        rcases hpoll : poll_iter o (st'.command_count + 1) 0 20
            { command_count := st'.command_count + 1, rIdx := st'.rIdx,
              sent := st'.sent ++ [frame cid (st'.command_count + 1) body] }
          with ⟨pr, st3⟩
        cases pr with
        | matched response => rfl
        | exhausted => rfl
        | fatal e => rfl
        | mismatch =>
          dsimp only
          rw [show f + 3 = (f + 2) + 1 from rfl,
            aux_reset_true_any o (f + 2) (g + 2) st3 []]
          rcases hres : perform_request_aux o ((g + 2) + 1) st3
              Command.resetCommandIndex [] true with ⟨res, st4⟩
          cases res with
          | error e => rfl
          | ok a =>
            dsimp only
            exact aux_other_true_any o f g st4 cid body
  · simp [hc]
    rcases hw : o.writeOk st.sent.length with _ | _
    · simp [write_control, hw]
    · simp only [write_control, hw]
      simp only [Command.command_id]
      simp
      rcases hpoll : poll_iter o (st.command_count + 1) 0 20
          { command_count := st.command_count + 1, rIdx := st.rIdx,
            sent := st.sent ++ [frame cid (st.command_count + 1) body] }
        with ⟨pr, st3⟩
      cases pr with
      | matched response => rfl
      | exhausted => rfl
      | fatal e => rfl
      | mismatch =>
        dsimp only
        rw [show f + 3 = (f + 2) + 1 from rfl,
          aux_reset_true_any o (f + 2) (g + 2) st3 []]
        rcases hres : perform_request_aux o ((g + 2) + 1) st3
            Command.resetCommandIndex [] true with ⟨res, st4⟩
        cases res with
        | error e => rfl
        | ok a =>
          dsimp only
          exact aux_other_true_any o f g st4 cid body

/-- Any fuel of at least 4 computes the same result as `perform_request`. -/
theorem perform_request_aux_fuel_ge (o : Oracle) (n : Nat) (st : GoXLRUSB)
    (command : Command) (body : List Nat) (retry : Bool) (h : 4 ≤ n) :
    perform_request_aux o n st command body retry =
      perform_request o st command body retry := by
  rw [perform_request]
  obtain ⟨f, rfl⟩ : ∃ f, n = f + 4 := ⟨n - 4, by omega⟩
  cases command with
  | resetCommandIndex =>
    cases retry with
    | true => exact aux_reset_true_any o (f + 3) 3 st body
    | false => exact aux_reset_false_any o (f + 2) 2 st body
  | other cid =>
    cases retry with
    | true => exact aux_other_true_any o (f + 1) 1 st cid body
    | false => exact aux_other_false_any o f 0 st cid body

/-- The scan of `find_device` reports the not-found failure whenever every bus/address-matching entry has an unreadable descriptor (which subsumes the no-match case). -/
theorem find_device_in_all_unreadable :
    ∀ (l : List UsbDeviceInfo) (device : GoXLRDevice),
      (∀ d, d ∈ l → d.bus_number = device.bus_number → d.address = device.address →
        d.descriptor = none) →
      find_device_in l device = Except.error "Specified Device not Found!" := by
  intro l
  induction l with
  | nil => intro device _; rfl
  | cons d rest ih =>
    intro device h
    by_cases hm : d.bus_number = device.bus_number ∧ d.address = device.address
    · have hd : d.descriptor = none := h d (by simp) hm.1 hm.2
      simp only [find_device_in, if_pos hm, hd]
      exact ih device (fun x hx h1 h2 => h x (by simp [hx]) h1 h2)
    · simp only [find_device_in, if_neg hm]
      exact ih device (fun x hx h1 h2 => h x (by simp [hx]) h1 h2)

/-- A call whose body is arbitrary (in particular oversized) still frames, sends and completes normally when the first poll matches: the framing path has no length check. -/
theorem oversize_body_call (body : List Nat) :
    perform_request (scriptedOracle [ReadResult.ok (respSeq 1)]) ⟨0, 0, []⟩
        (Command.other 1) body false =
      (Except.ok ((respSeq 1).drop 16),
       { command_count := 1, rIdx := 1, sent := [frame 1 1 body] }) := by
  have hcall := aux_nonreset_clean (scriptedOracle [ReadResult.ok (respSeq 1)]) 3
    ⟨0, 0, []⟩ 1 body false 0 (respSeq 1)
    (by decide) rfl (by decide) (fun k hk => absurd hk (by omega)) rfl (by decide) (by decide)
  rw [perform_request, hcall]
  simp

/-! ## The claims -/

/-- C1 (code bug): the claim says a call that returns success always delivers the trailing body of a polled response whose decoded sequence number equals the one assigned to the request awaiting an answer, and no other bytes.  The code violates it: with the transport not-ready (`Err(Pipe)`) on every poll, the always-true guard `i < 20` inside `for i in 0..20` makes the loop exhaust silently and `perform_request` returns `Ok` with the untouched empty `response` vector from line 128 — bytes taken from no polled response at all. -/
theorem claim_C1 :
    (perform_request (scriptedOracle []) ⟨0, 0, []⟩ (Command.other 7) [1, 2] false).1 =
      Except.ok [] ∧
    ∀ k, (scriptedOracle []).readRes k = ReadResult.pipe :=
  ⟨rfl, fun _ => rfl⟩

/-- C2 (code bug): the claim says that if all 20 poll attempts report the not-ready condition the call must fail with `ResponseTimeout` and poll no further.  The code polls exactly 20 times (final `rIdx` is 20, so no 21st poll) but then returns success with an empty body instead of an error: the timeout return at line 139 sits behind `if i < 20 { ... } else { ... }` with `i < 20` always true inside `for i in 0..20`, so it is dead code. -/
theorem claim_C2 :
    perform_request (scriptedOracle []) ⟨5, 0, []⟩ (Command.other 9) [3] false =
      (Except.ok [], { command_count := 6, rIdx := 20, sent := [frame 9 6 [3]] }) :=
  rfl

/-- C3: if the original attempt's response mismatches the expected sequence number and the resynchronized retry's response also mismatches, the call fails with the terminal `rusb::Error::Other` (the spec's `ResyncExhausted`) and sends exactly three frames — the original, one reset, one retry of the original `(cmd, body)` — so recovery is exactly one additional request cycle and no third cycle occurs (the recursion is bounded, see `perform_request_aux_fuel_ge`). -/
theorem claim_C3 (o : Oracle) (st : GoXLRUSB) (cid : Nat) (body : List Nat)
    (resp1 resp2 resp3 : List Nat)
    (hc : st.command_count ≠ 65535)
    (hw0 : o.writeOk st.sent.length = true)
    (hr0 : o.readRes st.rIdx = ReadResult.ok resp1)
    (hl0 : 16 ≤ resp1.length)
    (hm0 : read_u16 ((List.take 16 resp1).drop 6) ≠ st.command_count + 1)
    (hw1 : o.writeOk (st.sent.length + 1) = true)
    (hr1 : o.readRes (st.rIdx + 1) = ReadResult.ok resp2)
    (hl1 : 16 ≤ resp2.length)
    (hm1 : read_u16 ((List.take 16 resp2).drop 6) = 0)
    (hw2 : o.writeOk (st.sent.length + 2) = true)
    (hr2 : o.readRes (st.rIdx + 2) = ReadResult.ok resp3)
    (hl2 : 16 ≤ resp3.length)
    (hm2 : read_u16 ((List.take 16 resp3).drop 6) ≠ 1) :
    perform_request o st (Command.other cid) body false =
      (Except.error UsbError.other,
       { command_count := 1, rIdx := st.rIdx + 3,
         sent := st.sent ++ [frame cid (st.command_count + 1) body,
                             frame Command.resetCommandIndex.command_id 0 [],
                             frame cid 1 body] }) := by
  rw [perform_request, aux_mismatch_first o 3 st cid body resp1 hc hw0 hr0 hl0 hm0]
  rw [aux_reset_ok o 2
    { command_count := st.command_count + 1, rIdx := st.rIdx + 1,
      sent := st.sent ++ [frame cid (st.command_count + 1) body] } [] true resp2
    (by simpa using hw1) hr1 hl1 hm1]
  dsimp only
  rw [aux_mismatch_retry o 2
    { command_count := 0, rIdx := st.rIdx + 1 + 1,
      sent := (st.sent ++ [frame cid (st.command_count + 1) body]) ++
        [frame Command.resetCommandIndex.command_id 0 []] } cid body resp3
    (by simp) (by simpa using hw2) (by simpa [Nat.add_assoc] using hr2) hl2
    (by simpa using hm2)]
  simp [Nat.add_assoc]

theorem claim_C3_witness :
    read_u16 ((List.take 16 (respSeq 5)).drop 6) ≠ 0 + 1 ∧
    read_u16 ((List.take 16 (respSeq 0)).drop 6) = 0 ∧
    read_u16 ((List.take 16 (respSeq 7)).drop 6) ≠ 1 ∧
    perform_request
        (scriptedOracle [ReadResult.ok (respSeq 5), ReadResult.ok (respSeq 0),
          ReadResult.ok (respSeq 7)])
        ⟨0, 0, []⟩ (Command.other 7) [1] false =
      (Except.error UsbError.other,
       { command_count := 1, rIdx := 3,
         sent := [frame 7 1 [1], frame 0 0 [], frame 7 1 [1]] }) := by
  refine ⟨by decide, by decide, by decide, ?_⟩
  have h := claim_C3
    (scriptedOracle [ReadResult.ok (respSeq 5), ReadResult.ok (respSeq 0),
      ReadResult.ok (respSeq 7)])
    ⟨0, 0, []⟩ 7 [1] (respSeq 5) (respSeq 0) (respSeq 7)
    (by decide) rfl rfl (by decide) (by decide) rfl rfl (by decide) (by decide)
    rfl rfl (by decide) (by decide)
  simpa [Command.command_id] using h

/-- C4: (1) a fresh session (counter 0) running N non-reset commands that all complete with matching responses sends exactly one frame per command, carrying sequence numbers exactly 1..N in increasing order with no repeats (`List.range' 1 N`), and ends with the counter at N; (2) a non-reset command arriving with the counter at its maximum 65535 transparently issues a `ResetCommandIndex` first (frame with sequence 0) and then goes out with sequence 1, the counter restarting at 1; (3) a `ResetCommandIndex` command itself always uses sequence value 0 on the wire and resets the session counter to 0. -/
theorem claim_C4 :
    (∀ (o : Oracle) (cmds : List (Nat × List Nat)),
       CleanRun o ⟨0, 0, []⟩ cmds → cmds.length ≤ 65535 →
       ∃ st', run_commands o ⟨0, 0, []⟩ cmds = Except.ok st' ∧
         st'.sent.map frame_seq = List.range' 1 cmds.length ∧
         st'.command_count = cmds.length) ∧
    (∀ (o : Oracle) (st : GoXLRUSB) (cid : Nat) (body resp0 resp1 : List Nat),
       st.command_count = 65535 →
       o.writeOk st.sent.length = true →
       o.readRes st.rIdx = ReadResult.ok resp0 → 16 ≤ resp0.length →
       read_u16 ((List.take 16 resp0).drop 6) = 0 →
       o.writeOk (st.sent.length + 1) = true →
       o.readRes (st.rIdx + 1) = ReadResult.ok resp1 → 16 ≤ resp1.length →
       read_u16 ((List.take 16 resp1).drop 6) = 1 →
       perform_request o st (Command.other cid) body false =
         (Except.ok (resp1.drop 16),
          { command_count := 1, rIdx := st.rIdx + 2,
            sent := st.sent ++ [frame Command.resetCommandIndex.command_id 0 [],
                                frame cid 1 body] })) ∧
    (∀ (o : Oracle) (st : GoXLRUSB) (body resp : List Nat) (retry : Bool),
       o.writeOk st.sent.length = true →
       o.readRes st.rIdx = ReadResult.ok resp → 16 ≤ resp.length →
       read_u16 ((List.take 16 resp).drop 6) = 0 →
       perform_request o st Command.resetCommandIndex body retry =
         (Except.ok (resp.drop 16),
          { command_count := 0, rIdx := st.rIdx + 1,
            sent := st.sent ++
              [frame Command.resetCommandIndex.command_id 0 body] })) := by
  refine ⟨?_, ?_, ?_⟩
  · intro o cmds h hb
    obtain ⟨st', fs, hrun, hsent, hseq, hcount⟩ :=
      run_commands_clean o cmds ⟨0, 0, []⟩ h (by simpa using hb)
    refine ⟨st', hrun, ?_, by simpa using hcount⟩
    rw [hsent]
    simpa using hseq
  · intro o st cid body resp0 resp1 hc hw0 hr0 hl0 hm0 hw1 hr1 hl1 hm1
    rw [perform_request]
    exact aux_wrap_clean o 2 st cid body false resp0 resp1 hc hw0 hr0 hl0 hm0 hw1 hr1 hl1 hm1
  · intro o st body resp retry hw hr hl hm
    rw [perform_request]
    exact aux_reset_ok o 3 st body retry resp hw hr hl hm

theorem claim_C4_witness :
    (∃ st', run_commands
        (scriptedOracle [ReadResult.ok (respSeq 1), ReadResult.ok (respSeq 2)])
        ⟨0, 0, []⟩ [(9, [1]), (9, [2])] = Except.ok st' ∧
      st'.sent.map frame_seq = List.range' 1 2 ∧
      st'.command_count = 2) ∧
    perform_request
        (scriptedOracle [ReadResult.ok (respSeq 0), ReadResult.ok (respSeq 1 ++ [3])])
        ⟨65535, 0, []⟩ (Command.other 7) [1] false =
      (Except.ok [3],
       { command_count := 1, rIdx := 2, sent := [frame 0 0 [], frame 7 1 [1]] }) ∧
    perform_request (scriptedOracle [ReadResult.ok (respSeq 0 ++ [2])])
        ⟨77, 0, []⟩ Command.resetCommandIndex [5] false =
      (Except.ok [2],
       { command_count := 0, rIdx := 1, sent := [frame 0 0 [5]] }) := by
  refine ⟨?_, ?_, ?_⟩
  · have hclean : CleanRun
        (scriptedOracle [ReadResult.ok (respSeq 1), ReadResult.ok (respSeq 2)])
        ⟨0, 0, []⟩ [(9, [1]), (9, [2])] :=
      ⟨⟨rfl, 0, respSeq 1, by omega, fun k hk => absurd hk (by omega), rfl,
        by decide, by decide⟩,
       ⟨rfl, 0, respSeq 2, by omega, fun k hk => absurd hk (by omega),
        by decide, by decide, by decide⟩,
       trivial⟩
    exact claim_C4.1 _ [(9, [1]), (9, [2])] hclean (by decide)
  · have h := claim_C4.2.1
      (scriptedOracle [ReadResult.ok (respSeq 0), ReadResult.ok (respSeq 1 ++ [3])])
      ⟨65535, 0, []⟩ 7 [1] (respSeq 0) (respSeq 1 ++ [3])
      rfl rfl rfl (by decide) (by decide) rfl rfl (by decide) (by decide)
    simpa [Command.command_id] using h
  · have h := claim_C4.2.2 (scriptedOracle [ReadResult.ok (respSeq 0 ++ [2])])
      ⟨77, 0, []⟩ [5] (respSeq 0 ++ [2]) false rfl rfl (by decide) (by decide)
    simpa [Command.command_id] using h

/-- C5: on a non-retry call whose first response mismatches exactly once, the code issues a `ResetCommandIndex`, re-executes the original `(cmd, body)` marked as a retry, and on a matching retry returns the retry response's body as the successful result (the three frames sent being the original, the reset, and the retried original). -/
theorem claim_C5 (o : Oracle) (st : GoXLRUSB) (cid : Nat) (body : List Nat)
    (resp1 resp2 resp3 : List Nat)
    (hc : st.command_count ≠ 65535)
    (hw0 : o.writeOk st.sent.length = true)
    (hr0 : o.readRes st.rIdx = ReadResult.ok resp1)
    (hl0 : 16 ≤ resp1.length)
    (hm0 : read_u16 ((List.take 16 resp1).drop 6) ≠ st.command_count + 1)
    (hw1 : o.writeOk (st.sent.length + 1) = true)
    (hr1 : o.readRes (st.rIdx + 1) = ReadResult.ok resp2)
    (hl1 : 16 ≤ resp2.length)
    (hm1 : read_u16 ((List.take 16 resp2).drop 6) = 0)
    (hw2 : o.writeOk (st.sent.length + 2) = true)
    (hr2 : o.readRes (st.rIdx + 2) = ReadResult.ok resp3)
    (hl2 : 16 ≤ resp3.length)
    (hm2 : read_u16 ((List.take 16 resp3).drop 6) = 1) :
    perform_request o st (Command.other cid) body false =
      (Except.ok (resp3.drop 16),
       { command_count := 1, rIdx := st.rIdx + 3,
         sent := st.sent ++ [frame cid (st.command_count + 1) body,
                             frame Command.resetCommandIndex.command_id 0 [],
                             frame cid 1 body] }) := by
  rw [perform_request, aux_mismatch_first o 3 st cid body resp1 hc hw0 hr0 hl0 hm0]
  rw [aux_reset_ok o 2
    { command_count := st.command_count + 1, rIdx := st.rIdx + 1,
      sent := st.sent ++ [frame cid (st.command_count + 1) body] } [] true resp2
    (by simpa using hw1) hr1 hl1 hm1]
  dsimp only
  rw [aux_nonreset_clean o 2
    { command_count := 0, rIdx := st.rIdx + 1 + 1,
      sent := (st.sent ++ [frame cid (st.command_count + 1) body]) ++
        [frame Command.resetCommandIndex.command_id 0 []] } cid body true 0 resp3
    (by simp) (by simpa using hw2) (by omega)
    (fun k hk => absurd hk (by omega)) (by simpa [Nat.add_assoc] using hr2) hl2
    (by simpa using hm2)]
  simp [Nat.add_assoc]

theorem claim_C5_witness :
    read_u16 ((List.take 16 (respSeq 5)).drop 6) ≠ 0 + 1 ∧
    read_u16 ((List.take 16 (respSeq 0)).drop 6) = 0 ∧
    read_u16 ((List.take 16 (respSeq 1 ++ [9])).drop 6) = 1 ∧
    perform_request
        (scriptedOracle [ReadResult.ok (respSeq 5), ReadResult.ok (respSeq 0),
          ReadResult.ok (respSeq 1 ++ [9])])
        ⟨0, 0, []⟩ (Command.other 7) [1] false =
      (Except.ok [9],
       { command_count := 1, rIdx := 3,
         sent := [frame 7 1 [1], frame 0 0 [], frame 7 1 [1]] }) := by
  refine ⟨by decide, by decide, by decide, ?_⟩
  have h := claim_C5
    (scriptedOracle [ReadResult.ok (respSeq 5), ReadResult.ok (respSeq 0),
      ReadResult.ok (respSeq 1 ++ [9])])
    ⟨0, 0, []⟩ 7 [1] (respSeq 5) (respSeq 0) (respSeq 1 ++ [9])
    (by decide) rfl rfl (by decide) (by decide) rfl rfl (by decide) (by decide)
    rfl rfl (by decide) (by decide)
  simpa [Command.command_id] using h

/-- C6: with the not-ready condition on exactly the first 19 poll attempts and a well-formed response carrying the expected sequence number on the 20th, the call succeeds with that response's trailing body — the boundary case exactly at the attempt limit. -/
theorem claim_C6 (o : Oracle) (st : GoXLRUSB) (cid : Nat) (body resp : List Nat)
    (hc : st.command_count ≠ 65535)
    (hw : o.writeOk st.sent.length = true)
    (hp : ∀ k, k < 19 → o.readRes (st.rIdx + k) = ReadResult.pipe)
    (hr : o.readRes (st.rIdx + 19) = ReadResult.ok resp)
    (hl : 16 ≤ resp.length)
    (hm : read_u16 ((List.take 16 resp).drop 6) = st.command_count + 1) :
    perform_request o st (Command.other cid) body false =
      (Except.ok (resp.drop 16),
       { command_count := st.command_count + 1, rIdx := st.rIdx + 20,
         sent := st.sent ++ [frame cid (st.command_count + 1) body] }) := by
  rw [perform_request]
  have h := aux_nonreset_clean o 3 st cid body false 19 resp hc hw (by omega) hp hr hl hm
  simpa [Nat.add_assoc] using h

theorem claim_C6_witness :
    (∀ k, k < 19 →
      (scriptedOracle (List.replicate 19 ReadResult.pipe ++
        [ReadResult.ok (respSeq 1 ++ [8])])).readRes (0 + k) = ReadResult.pipe) ∧
    perform_request
        (scriptedOracle (List.replicate 19 ReadResult.pipe ++
          [ReadResult.ok (respSeq 1 ++ [8])]))
        ⟨0, 0, []⟩ (Command.other 7) [] false =
      (Except.ok [8], { command_count := 1, rIdx := 20, sent := [frame 7 1 []] }) := by
  refine ⟨by decide, ?_⟩
  have h := claim_C6
    (scriptedOracle (List.replicate 19 ReadResult.pipe ++ [ReadResult.ok (respSeq 1 ++ [8])]))
    ⟨0, 0, []⟩ 7 [] (respSeq 1 ++ [8]) (by decide) rfl (by decide) (by decide)
    (by decide) (by decide)
  simpa using h

/-- C7: round-trip framing.  For every command identifier below 2 ^ 32, sequence number below 2 ^ 16 and body of length at most 65535, decoding the produced frame (bytes 0-3 little-endian, bytes 4-5 little-endian, bytes 6-7 little-endian, body after offset 16) recovers the identical identifier, body length, sequence number and body, and bytes 8-15 of the header are zero. -/
theorem claim_C7 (cid s : Nat) (body : List Nat)
    (h1 : cid < 4294967296) (h2 : s < 65536) (h3 : body.length ≤ 65535) :
    read_u32 ((frame cid s body).take 4) = cid ∧
    read_u16 (((frame cid s body).drop 4).take 2) = body.length ∧
    read_u16 (((frame cid s body).drop 6).take 2) = s ∧
    ((frame cid s body).drop 8).take 8 = [0, 0, 0, 0, 0, 0, 0, 0] ∧
    (frame cid s body).drop 16 = body := by
  have ht4 : (frame cid s body).take 4 =
      [cid % 256, cid / 256 % 256, cid / 65536 % 256, cid / 16777216 % 256] := rfl
  have ht67 : ((frame cid s body).drop 6).take 2 = [s % 256, s / 256 % 256] := rfl
  have ht815 : ((frame cid s body).drop 8).take 8 = [0, 0, 0, 0, 0, 0, 0, 0] := rfl
  refine ⟨?_, ?_, ?_, ht815, frame_drop16 cid s body⟩
  · rw [ht4]; simp [read_u32]; omega
  · rw [frame_declared_len]; omega
  · rw [ht67]; simp [read_u16]; omega

theorem claim_C7_witness :
    305419896 < 4294967296 ∧ 4660 < 65536 ∧ ([1, 2, 3] : List Nat).length ≤ 65535 ∧
    read_u32 ((frame 305419896 4660 [1, 2, 3]).take 4) = 305419896 ∧
    read_u16 (((frame 305419896 4660 [1, 2, 3]).drop 4).take 2) = 3 ∧
    read_u16 (((frame 305419896 4660 [1, 2, 3]).drop 6).take 2) = 4660 ∧
    ((frame 305419896 4660 [1, 2, 3]).drop 8).take 8 = [0, 0, 0, 0, 0, 0, 0, 0] ∧
    (frame 305419896 4660 [1, 2, 3]).drop 16 = [1, 2, 3] := by
  have h := claim_C7 305419896 4660 [1, 2, 3] (by decide) (by decide) (by decide)
  exact ⟨by decide, by decide, by decide, h.1, h.2.1, h.2.2.1, h.2.2.2.1, h.2.2.2.2⟩

/-- C8 (counterexample): the claim says framing fails whenever the body exceeds 65535 bytes.  It does not: a 65536-byte body is framed — the frame has full length 16 + 65536 and a declared-length field that wraps to 0 — and the frame is handed to the transport and the call completes successfully. -/
theorem claim_C8_counterexample :
    (List.replicate 65536 2).length = 65536 ∧
    (frame 1 1 (List.replicate 65536 2)).length = 16 + 65536 ∧
    read_u16 (((frame 1 1 (List.replicate 65536 2)).drop 4).take 2) = 0 ∧
    (perform_request (scriptedOracle [ReadResult.ok (respSeq 1)]) ⟨0, 0, []⟩
        (Command.other 1) (List.replicate 65536 2) false).1 =
      Except.ok ((respSeq 1).drop 16) ∧
    (perform_request (scriptedOracle [ReadResult.ok (respSeq 1)]) ⟨0, 0, []⟩
        (Command.other 1) (List.replicate 65536 2) false).2.sent =
      [frame 1 1 (List.replicate 65536 2)] := by
  have h := oversize_body_call (List.replicate 65536 2)
  refine ⟨List.length_replicate 65536 2, ?_, ?_, ?_, ?_⟩
  · rw [frame_length, List.length_replicate]
  · rw [frame_declared_len, List.length_replicate]
  · rw [h]
  · rw [h]

/-- C8 (amended): framing never fails; the declared length at bytes 4-5 is the body length reduced modulo 2 ^ 16 (the `as u16` cast), while the entire body is still appended to the frame that is sent. -/
theorem claim_C8_amended (cid s : Nat) (body : List Nat) :
    (frame cid s body).length = 16 + body.length ∧
    read_u16 (((frame cid s body).drop 4).take 2) = body.length % 65536 ∧
    (frame cid s body).drop 16 = body :=
  ⟨frame_length cid s body, frame_declared_len cid s body, frame_drop16 cid s body⟩

/-- C9: for a non-reset command (with no wrap pending), if the outbound control write fails after sequence assignment, `perform_request` surfaces the transport error with the session counter already incremented by 1 — the failed request permanently consumes its sequence number; the counter is not rolled back. -/
theorem claim_C9 (o : Oracle) (st : GoXLRUSB) (cid : Nat) (body : List Nat)
    (retry : Bool)
    (hc : st.command_count ≠ 65535)
    (hw : o.writeOk st.sent.length = false) :
    perform_request o st (Command.other cid) body retry =
      (Except.error UsbError.writeFail,
       { command_count := st.command_count + 1, rIdx := st.rIdx,
         sent := st.sent ++ [frame cid (st.command_count + 1) body] }) := by
  rw [perform_request]
  exact aux_write_fail o 3 st cid body retry hc hw

theorem claim_C9_witness :
    (⟨3, 0, []⟩ : GoXLRUSB).command_count ≠ 65535 ∧
    failWriteOracle.writeOk ((⟨3, 0, []⟩ : GoXLRUSB).sent).length = false ∧
    perform_request failWriteOracle ⟨3, 0, []⟩ (Command.other 7) [1] true =
      (Except.error UsbError.writeFail, ⟨4, 0, [frame 7 4 [1]]⟩) := by
  refine ⟨by decide, rfl, ?_⟩
  have h := claim_C9 failWriteOracle ⟨3, 0, []⟩ 7 [1] true (by decide) rfl
  simpa using h

/-- C10: session resolution fails with the device-not-found error not only when no attached device matches the requested bus/address but also when every matching device has an unreadable descriptor, and when platform enumeration itself fails; a matching device with an unreadable descriptor is skipped (the scan continues past it) rather than reported as a distinct error. -/
theorem claim_C10 :
    (∀ (l : List UsbDeviceInfo) (openOk : Bool) (device : GoXLRDevice),
       (∀ d, d ∈ l → d.bus_number = device.bus_number → d.address = device.address →
          d.descriptor = none) →
       from_device (some l) openOk device =
         Except.error "Specified Device not Found!") ∧
    (∀ (openOk : Bool) (device : GoXLRDevice),
       from_device none openOk device =
         Except.error "Specified Device not Found!") ∧
    (∀ (bus addr : Nat) (rest : List UsbDeviceInfo) (device : GoXLRDevice),
       bus = device.bus_number → addr = device.address →
       find_device_in
           ({ bus_number := bus, address := addr, descriptor := none } :: rest) device =
         find_device_in rest device) := by
  refine ⟨?_, ?_, ?_⟩
  · intro l openOk device h
    have := find_device_in_all_unreadable l device h
    simp [from_device, find_device, this]
  · intro openOk device
    rfl
  · intro bus addr rest device h1 h2
    simp [find_device_in, h1, h2]

theorem claim_C10_witness :
    (∀ d, d ∈ ([⟨1, 2, some ⟨9, 9⟩⟩, ⟨5, 6, none⟩] : List UsbDeviceInfo) →
       d.bus_number = (⟨5, 6⟩ : GoXLRDevice).bus_number →
       d.address = (⟨5, 6⟩ : GoXLRDevice).address → d.descriptor = none) ∧
    from_device (some ([⟨1, 2, some ⟨9, 9⟩⟩, ⟨5, 6, none⟩] : List UsbDeviceInfo))
        true ⟨5, 6⟩ = Except.error "Specified Device not Found!" ∧
    from_device none true ⟨7, 8⟩ = Except.error "Specified Device not Found!" ∧
    find_device_in ([⟨3, 4, none⟩] : List UsbDeviceInfo) ⟨3, 4⟩ =
      find_device_in [] ⟨3, 4⟩ := by
  refine ⟨by decide, ?_, ?_, ?_⟩
  · exact claim_C10.1 _ true ⟨5, 6⟩ (by decide)
  · exact claim_C10.2.1 true ⟨7, 8⟩
  · exact claim_C10.2.2 3 4 [] ⟨3, 4⟩ rfl rfl

end GoXLR
